import Mathlib

/-!
# Verification of the secure key-generation-and-ephemeral-display subsystem

Shallow embedding of `get-secret-key/to forge key/get_secret_key.py`.

Randomness model: the Python module imports both `secrets` (a cryptographically
secure source) and `random` (the general-purpose non-secure PRNG).  We model the
pair as an `Entropy` record of two oracles, each an infinite stream of naturals;
every generator receives the record and reads from whichever module the source
code actually calls.  A call such as `secrets.choice(characters)` on step `i` is
modelled as indexing `characters` by `e.secrets i % characters.length`, and
`secrets.randbelow n` as `e.secrets i % n` — both are surjective onto the range
the library call draws from, so every behaviour of the script is a behaviour of
the model.  `random.choice` reads `e.random` instead.

Python integer semantics: `length` parameters are `Int`; `range(n)` iterates
`n.toNat` times (empty for `n ≤ 0`, exactly as in Python); `//` on a
non-negative dividend with positive divisor is `Int.ediv`.
-/

/-- The two module-level randomness sources visible to `get_secret_key.py`:
`secrets` (cryptographically secure) and `random` (non-secure PRNG).  Each is an
oracle giving the stream of values the module would produce. -/
structure Entropy where
  secrets : Nat → Nat
  random : Nat → Nat

/-- `string.ascii_uppercase + string.digits + string.ascii_lowercase`,
in the order the source builds it (line 35). -/
def charactersList : List Char :=
  ("ABCDEFGHIJKLMNOPQRSTUVWXYZ" ++ "0123456789" ++ "abcdefghijklmnopqrstuvwxyz").data

/-- `secrets.choice(l)` at draw index `i`: a uniformly random element of `l`. -/
def secretsChoice (g : Nat → Nat) (i : Nat) (l : List Char) : Char :=
  l.getD (g i % l.length) ' '

/-- 1. `generate_random_key(length=32)` (lines 33–36):
`''.join(secrets.choice(characters) for _ in range(length))`. -/
def generate_random_key (e : Entropy) (length : Int := 32) : String :=
  String.mk ((List.range length.toNat).map (fun i => secretsChoice e.secrets i charactersList))

/-- Lowercase hexadecimal digits, as produced by `bytes.hex` / `token_hex`. -/
def hexDigits : List Char := "0123456789abcdef".data

/-- One byte rendered as two lowercase hex characters. -/
def byteToHex (b : Nat) : List Char :=
  [hexDigits.getD (b / 16 % 16) '0', hexDigits.getD (b % 16) '0']

/-- `secrets.token_hex(nbytes)`: `nbytes` secure random bytes, hex-encoded. -/
def token_hex (g : Nat → Nat) (nbytes : Nat) : String :=
  String.mk (((List.range nbytes).map (fun i => g i % 256)).flatMap byteToHex)

/-- 3. `generate_hex_key(length=32)` (lines 44–46):
`secrets.token_hex(length // 2)`. -/
def generate_hex_key (e : Entropy) (length : Int := 32) : String :=
  token_hex e.secrets (length / 2).toNat

/-- 6. `generate_numeric_key(length=6)` (lines 59–61):
`''.join(str(secrets.randbelow(10)) for _ in range(length))`.
`str` of a one-digit number `d` is the character with code `48 + d`. -/
def generate_numeric_key (e : Entropy) (length : Int := 6) : String :=
  String.mk ((List.range length.toNat).map (fun i => Char.ofNat (48 + e.secrets i % 10)))

/-- The module-level `WORDLIST` (line 64). -/
def WORDLIST : List String :=
  ["alpha", "beta", "gamma", "lana", "delta", "epsilon", "zebra", "tiger",
   "moon", "galaxy", "ocean", "archer"]

/-- 7. `generate_passphrase(num_words=4)` (lines 67–69):
`' '.join(random.choice(WORDLIST) for _ in range(num_words))`.
Note the draw is `random.choice`, the NON-secure source. -/
def generate_passphrase (e : Entropy) (num_words : Int := 4) : String :=
  String.intercalate " "
    ((List.range num_words.toNat).map (fun i => WORDLIST.getD (e.random i % WORDLIST.length) ""))

/-- The display-duration clamp in `main` (lines 128–138): `seconds < 1`
falls back to the default 20, `seconds > 60` is capped at 60, anything
in `[1, 60]` is kept. -/
def clampDisplaySeconds (seconds : Int) : Int :=
  if seconds < 1 then 20
  else if seconds > 60 then 60
  else seconds

/-! ## SHA-256 (FIPS 180-4), needed by `generate_sha256_key` and `hmac` -/

/-- Truncation to a 32-bit word. -/
def w32 (x : Nat) : Nat := x % 4294967296

/-- 32-bit right rotation. -/
def rotr32 (n x : Nat) : Nat := w32 (x / 2 ^ n + x % 2 ^ n * 2 ^ (32 - n))

/-- 32-bit right shift. -/
def shr32 (n x : Nat) : Nat := x / 2 ^ n

def sha256Ch (x y z : Nat) : Nat :=
  Nat.xor (Nat.land x y) (Nat.land (Nat.xor 4294967295 x) z)

def sha256Maj (x y z : Nat) : Nat :=
  Nat.xor (Nat.land x y) (Nat.xor (Nat.land x z) (Nat.land y z))

def bSig0 (x : Nat) : Nat := Nat.xor (rotr32 2 x) (Nat.xor (rotr32 13 x) (rotr32 22 x))

def bSig1 (x : Nat) : Nat := Nat.xor (rotr32 6 x) (Nat.xor (rotr32 11 x) (rotr32 25 x))

def sSig0 (x : Nat) : Nat := Nat.xor (rotr32 7 x) (Nat.xor (rotr32 18 x) (shr32 3 x))

def sSig1 (x : Nat) : Nat := Nat.xor (rotr32 17 x) (Nat.xor (rotr32 19 x) (shr32 10 x))

/-- The 64 SHA-256 round constants (decimal). -/
def sha256K : List Nat :=
  [1116352408, 1899447441, 3049323471, 3921009573, 961987163,
   1508970993, 2453635748, 2870763221, 3624381080, 310598401,
   607225278, 1426881987, 1925078388, 2162078206, 2614888103,
   3248222580, 3835390401, 4022224774, 264347078, 604807628,
   770255983, 1249150122, 1555081692, 1996064986, 2554220882,
   2821834349, 2952996808, 3210313671, 3336571891, 3584528711,
   113926993, 338241895, 666307205, 773529912, 1294757372,
   1396182291, 1695183700, 1986661051, 2177026350, 2456956037,
   2730485921, 2820302411, 3259730800, 3345764771, 3516065817,
   3600352804, 4094571909, 275423344, 430227734, 506948616,
   659060556, 883997877, 958139571, 1322822218, 1537002063,
   1747873779, 1955562222, 2024104815, 2227730452, 2361852424,
   2428436474, 2756734187, 3204031479, 3329325298]

/-- The SHA-256 initial hash value (decimal). -/
def sha256H0 : List Nat :=
  [1779033703, 3144134277, 1013904242, 2773480762,
   1359893119, 2600822924, 528734635, 1541459225]

/-- Merkle–Damgård padding: `0x80`, zeros, then the 64-bit big-endian bit length. -/
def sha256Pad (msg : List Nat) : List Nat :=
  let L := msg.length
  msg ++ [128] ++ List.replicate ((119 - L % 64) % 64) 0 ++
    (List.range 8).map (fun i => 8 * L / 2 ^ (8 * (7 - i)) % 256)

def chunkAux (n : Nat) : Nat → List Nat → List (List Nat)
  | _, [] => []
  | 0, l => [l]
  | fuel + 1, l => l.take n :: chunkAux n fuel (l.drop n)

/-- Split a list into consecutive chunks of `n` elements (last one may be short). -/
def chunksOf (n : Nat) (l : List Nat) : List (List Nat) := chunkAux n l.length l

/-- Big-endian 32-bit words from a byte list. -/
def wordsOfBytes (l : List Nat) : List Nat :=
  (chunksOf 4 l).map (fun c => c.foldl (fun acc b => acc * 256 + b) 0)

/-- Extend the 16-word message schedule by `n` further words. -/
def extendW : Nat → List Nat → List Nat
  | 0, ws => ws
  | n + 1, ws =>
      let t := ws.length
      extendW n (ws ++ [w32 (sSig1 (ws.getD (t - 2) 0) + ws.getD (t - 7) 0 +
                             sSig0 (ws.getD (t - 15) 0) + ws.getD (t - 16) 0)])

/-- One SHA-256 round on the state `[a, b, c, d, e, f, g, h]`. -/
def sha256Round (kw : Nat × Nat) (s : List Nat) : List Nat :=
  match s with
  | [a, b, c, d, e, f, g, h] =>
      let t1 := w32 (h + bSig1 e + sha256Ch e f g + kw.1 + kw.2)
      let t2 := w32 (bSig0 a + sha256Maj a b c)
      [w32 (t1 + t2), a, b, c, w32 (d + t1), e, f, g]
  | s => s

/-- Compress one 64-byte block into the running hash. -/
def sha256Compress (H block : List Nat) : List Nat :=
  let W := extendW 48 (wordsOfBytes block)
  let s := (sha256K.zip W).foldl (fun s kw => sha256Round kw s) H
  List.zipWith (fun x y => w32 (x + y)) H s

/-- `hashlib.sha256(msg).digest()` as a list of 32 bytes. -/
def sha256Bytes (msg : List Nat) : List Nat :=
  let H := (chunksOf 64 (sha256Pad msg)).foldl sha256Compress sha256H0
  H.flatMap (fun wd => (List.range 4).map (fun i => wd / 2 ^ (8 * (3 - i)) % 256))

/-- `.hexdigest()`: lowercase hex rendering of a byte list. -/
def hexOfBytes (bytes : List Nat) : String := String.mk (bytes.flatMap byteToHex)

/-! ## UTF-8 and HMAC-SHA256 (`hmac.new(secret.encode(), b"secure_data", hashlib.sha256)`) -/

/-- UTF-8 encoding of one code point (`str.encode` operates per code point). -/
def utf8EncodeChar (c : Nat) : List Nat :=
  if c < 128 then [c]
  else if c < 2048 then [192 + c / 64, 128 + c % 64]
  else if c < 65536 then [224 + c / 4096, 128 + c / 64 % 64, 128 + c % 64]
  else [240 + c / 262144, 128 + c / 4096 % 64, 128 + c / 64 % 64, 128 + c % 64]

/-- `s.encode()`: the UTF-8 bytes of a Python `str`. -/
def strBytes (s : String) : List Nat := s.data.flatMap (fun c => utf8EncodeChar c.toNat)

/-- HMAC key preparation for a 64-byte block size: keys longer than one block
are hashed first, then the key is zero-padded to exactly 64 bytes. -/
def hmacPadKey (key : List Nat) : List Nat :=
  let k0 := if 64 < key.length then sha256Bytes key else key
  k0 ++ List.replicate (64 - k0.length) 0

/-- `hmac.new(key, msg, hashlib.sha256).hexdigest()`. -/
def hmacSha256Hex (key msg : List Nat) : String :=
  let k0 := hmacPadKey key
  let inner := sha256Bytes (k0.map (fun b => Nat.xor b 54) ++ msg)
  hexOfBytes (sha256Bytes (k0.map (fun b => Nat.xor b 92) ++ inner))

/-- 8. `generate_hmac_key(secret="my_secret")` (lines 72–74):
`hmac.new(secret.encode(), b"secure_data", hashlib.sha256).hexdigest()`.
The function draws no randomness; it receives the `Entropy` record like every
generator (it is stored in the same dispatch table) but reads neither oracle. -/
def generate_hmac_key (e : Entropy) (secret : String := "my_secret") : String :=
  hmacSha256Hex (strBytes secret) (strBytes "secure_data")

/-- 4. `generate_sha256_key()` (lines 49–51):
`hashlib.sha256(secrets.token_bytes(32)).hexdigest()`. -/
def generate_sha256_key (e : Entropy) : String :=
  hexOfBytes (sha256Bytes ((List.range 32).map (fun i => e.secrets i % 256)))

/-! ## Base64, UUID, and the remaining generators -/

/-- The URL-safe Base64 alphabet used by `base64.urlsafe_b64encode`. -/
def b64Alphabet : List Char :=
  ("ABCDEFGHIJKLMNOPQRSTUVWXYZabcdefghijklmnopqrstuvwxyz0123456789-_").data

/-- Encode one group of at most three bytes into four Base64 characters,
padding with `=`. -/
def b64Chunk : List Nat → List Char
  | [a] => [b64Alphabet.getD (a / 4) '=', b64Alphabet.getD (a % 4 * 16) '=', '=', '=']
  | [a, b] => [b64Alphabet.getD (a / 4) '=', b64Alphabet.getD (a % 4 * 16 + b / 16) '=',
               b64Alphabet.getD (b % 16 * 4) '=', '=']
  | [a, b, c] => [b64Alphabet.getD (a / 4) '=', b64Alphabet.getD (a % 4 * 16 + b / 16) '=',
                  b64Alphabet.getD (b % 16 * 4 + c / 64) '=', b64Alphabet.getD (c % 64) '=']
  | _ => []

/-- `base64.urlsafe_b64encode(bytes).decode("utf-8")`. -/
def urlsafe_b64encode (bytes : List Nat) : String :=
  String.mk ((chunksOf 3 bytes).flatMap b64Chunk)

/-- 5. `generate_base64_key(length=32)` (lines 54–56):
`base64.urlsafe_b64encode(secrets.token_bytes(length)).decode("utf-8")`. -/
def generate_base64_key (e : Entropy) (length : Int := 32) : String :=
  urlsafe_b64encode ((List.range length.toNat).map (fun i => e.secrets i % 256))

/-- Uppercase hexadecimal digits (for the `.upper()` rendering of the UUID). -/
def hexDigitsUpper : List Char := "0123456789ABCDEF".data

def byteToHexUpper (b : Nat) : List Char :=
  [hexDigitsUpper.getD (b / 16 % 16) '0', hexDigitsUpper.getD (b % 16) '0']

/-- 2. `generate_uuid_key()` (lines 39–41):
`str(uuid.uuid4()).replace("-", "").upper()`.  `uuid4` draws 16 bytes from the
secure OS source, forces the version nibble of byte 6 to `4` and the two top
bits of byte 8 to `10`; removing the hyphens and uppercasing leaves the 32
uppercase hex characters of those bytes. -/
def generate_uuid_key (e : Entropy) : String :=
  String.mk (((List.range 16).map (fun i =>
    if i = 6 then e.secrets i % 256 % 16 + 64
    else if i = 8 then e.secrets i % 256 % 64 + 128
    else e.secrets i % 256)).flatMap byteToHexUpper)

/-- The `key_generators` dispatch (lines 141–151) followed by the call
`key_generators[choice]()` (line 151): every generator is invoked with NO
arguments, so each kind-specific parameter takes its built-in default. -/
def key_generators_call (e : Entropy) (choice : Nat) : String :=
  if choice = 1 then generate_random_key e
  else if choice = 2 then generate_uuid_key e
  else if choice = 3 then generate_hex_key e
  else if choice = 4 then generate_sha256_key e
  else if choice = 5 then generate_base64_key e
  else if choice = 6 then generate_numeric_key e
  else if choice = 7 then generate_passphrase e
  else if choice = 8 then generate_hmac_key e
  else ""

/-! ## The wipe path and the exposure trace -/

/-- The junk value `'*' * len(key_ref)` that `wipe_key_from_memory` (lines
86–90) binds to its local name `key_ref` before `del key_ref`. -/
def wipe_key_overwrite (key_ref : String) : String :=
  String.mk (List.replicate key_ref.length '*')

/-- The caller's frame in `main`: the variable `key` holding the generated
secret (line 151). -/
structure MainFrame where
  key : String

/-- The call `wipe_key_from_memory(key)` (line 163) as observed from `main`.
Python binds the callee parameter `key_ref` to the same string object `key`
refers to; the callee then REBINDS the local name `key_ref` to the junk string
and deletes the local name.  An assignment to a callee-local name never rebinds
the caller's variable, and `str` objects are immutable, so after the call
`main`'s `key` still denotes the original secret unchanged. -/
def main_after_wipe (frame : MainFrame) : MainFrame :=
  let key_ref := frame.key
  let _junk := wipe_key_overwrite key_ref
  frame

/-- Observable events of the exposure phase of `main` (lines 158–166). -/
inductive Event where
  | tick (remaining : Nat)
  | timerDone
  | threadJoined
  | wipeKey
  | exposeReturn
deriving DecidableEq, Repr

/-- `countdown_timer(seconds)` (lines 77–83): `for remaining in
range(seconds, 0, -1)` prints a tick, then the expiry message. -/
def countdown_events (seconds : Nat) : List Event :=
  (List.range seconds).map (fun i => Event.tick (seconds - i)) ++ [Event.timerDone]

/-- The exposure phase of `main` (lines 158–166) as an event trace: the timer
thread is started, `main` immediately blocks in `timer_thread.join()` — so
every countdown event precedes the join —, then `wipe_key_from_memory(key)`
runs, and only then does control return from the exposure phase. -/
def expose_trace (seconds : Nat) : List Event :=
  countdown_events seconds ++ [Event.threadJoined, Event.wipeKey, Event.exposeReturn]

/-! ## Sample entropy records and the secure-sourcing predicate -/

/-- A concrete entropy record: both oracles constantly `0`. -/
def E0 : Entropy := ⟨fun _ => 0, fun _ => 0⟩

/-- A concrete entropy record with the SAME secure stream as `E0` but a
different non-secure stream. -/
def E1 : Entropy := ⟨fun _ => 0, fun _ => 1⟩

/-- A generator draws all of its randomness from the cryptographically secure
source iff its output is a function of the `secrets` oracle alone: varying the
non-secure `random` oracle can never change the output. -/
def dependsOnlyOnSecrets (f : Entropy → String) : Prop :=
  ∀ e₁ e₂ : Entropy, e₁.secrets = e₂.secrets → f e₁ = f e₂

/-! ## Helper lemmas -/

theorem getD_mem {α : Type} (l : List α) (n : Nat) (d : α) (h : n < l.length) :
    l.getD n d ∈ l := by
  rw [List.getD_eq_getElem l d h]
  exact List.getElem_mem h

theorem length_flatMap_byteToHex (l : List Nat) :
    (l.flatMap byteToHex).length = 2 * l.length := by
  induction l with
  | nil => rfl
  | cons x xs ih => simp [List.flatMap_cons, byteToHex, ih]; omega

theorem token_hex_length (g : Nat → Nat) (n : Nat) : (token_hex g n).length = 2 * n := by
  show (((List.range n).map _).flatMap byteToHex).length = 2 * n
  rw [length_flatMap_byteToHex]
  simp

theorem byteToHex_mem_hexDigits (b : Nat) : ∀ c ∈ byteToHex b, c ∈ hexDigits := by
  intro c hc
  simp only [byteToHex, List.mem_cons, List.not_mem_nil, or_false] at hc
  rcases hc with h | h <;> subst h <;>
    exact getD_mem hexDigits _ '0' (Nat.mod_lt _ (by decide))

theorem digit_char_isDigit (d : Nat) (h : d < 10) : (Char.ofNat (48 + d)).isDigit = true := by
  interval_cases d <;> decide

/-! ## Claim theorems -/

/-- C1: the spec demands that after `wipe_key_from_memory(key)` the
caller-visible value bound to the secret differs from the original.  The code
violates this: rebinding the callee-local `key_ref` cannot affect `main`'s
`key`, so the caller still sees the original secret unchanged (here at the
concrete secret `"S3CR3T"`, and in fact for every secret).  The junk string is
built with the right length, but only the callee-local name is ever bound to
it. -/
theorem wipe_leaves_caller_key_unchanged :
    (main_after_wipe ⟨"S3CR3T"⟩).key = "S3CR3T" ∧
    (∀ k : String, (main_after_wipe ⟨k⟩).key = k) ∧
    (∀ k : String, (wipe_key_overwrite k).length = k.length) :=
  ⟨rfl, fun _ => rfl, fun k => by
    show (List.replicate k.length '*').length = k.length
    simp⟩

/-- C5: the display duration is clamped, not rejected: below 1 gives the
default 20, above 60 gives 60, and values in `[1, 60]` pass through; in
particular 0 gives 20 and 500 gives 60. -/
theorem clampDisplaySeconds_spec (d : Int) :
    (d < 1 → clampDisplaySeconds d = 20) ∧
    (60 < d → clampDisplaySeconds d = 60) ∧
    (1 ≤ d → d ≤ 60 → clampDisplaySeconds d = d) ∧
    clampDisplaySeconds 0 = 20 ∧ clampDisplaySeconds 500 = 60 := by
  refine ⟨fun h1 => ?_, fun h2 => ?_, fun h3 h4 => ?_, by decide, by decide⟩ <;>
    (unfold clampDisplaySeconds; split_ifs <;> omega)

theorem clampDisplaySeconds_spec_witness : clampDisplaySeconds 30 = 30 :=
  (clampDisplaySeconds_spec 30).2.2.1 (by decide) (by decide)

/-- C6: for `L ≥ 2`, `generate_hex_key` returns hex characters only, and the
output length is `L` for even `L` and `L - 1` for odd `L` (the byte count is
`L // 2`, each byte giving two hex characters). -/
theorem generate_hex_key_spec (e : Entropy) (L : Int) (h : 2 ≤ L) :
    (generate_hex_key e L).length = (if L % 2 = 0 then L.toNat else L.toNat - 1) ∧
    ∀ c ∈ (generate_hex_key e L).data, c ∈ hexDigits := by
  constructor
  · show (token_hex e.secrets (L / 2).toNat).length = _
    rw [token_hex_length]
    split <;> omega
  · intro c hc
    have hc' : c ∈ ((List.range (L / 2).toNat).map
        (fun i => e.secrets i % 256)).flatMap byteToHex := hc
    simp only [List.mem_flatMap, List.mem_map, List.mem_range] at hc'
    obtain ⟨b, ⟨i, _, rfl⟩, hcb⟩ := hc'
    exact byteToHex_mem_hexDigits _ c hcb

theorem generate_hex_key_spec_witness :
    (2 : Int) ≤ 5 ∧
      ((generate_hex_key E0 5).length =
        (if (5 : Int) % 2 = 0 then (5 : Int).toNat else (5 : Int).toNat - 1) ∧
       ∀ c ∈ (generate_hex_key E0 5).data, c ∈ hexDigits) :=
  ⟨by decide, generate_hex_key_spec E0 5 (by decide)⟩

/-- C7: for `L ≥ 1`, `generate_random_key` returns exactly `L` characters,
each drawn from the 62-character alphanumeric alphabet (26 upper + 10 digits +
26 lower, in the order the source concatenates them). -/
theorem generate_random_key_spec (e : Entropy) (L : Int) (h : 1 ≤ L) :
    (generate_random_key e L).length = L.toNat ∧
    charactersList.length = 62 ∧ charactersList.Nodup ∧
    (∀ c ∈ charactersList, c.isAlphanum = true) ∧
    ∀ c ∈ (generate_random_key e L).data, c ∈ charactersList := by
  refine ⟨?_, by decide, by decide, by decide, ?_⟩
  · show ((List.range L.toNat).map _).length = L.toNat
    simp
  · intro c hc
    have hc' : c ∈ (List.range L.toNat).map
        (fun i => secretsChoice e.secrets i charactersList) := hc
    simp only [List.mem_map, List.mem_range] at hc'
    obtain ⟨i, _, rfl⟩ := hc'
    exact getD_mem _ _ _ (Nat.mod_lt _ (by decide))

theorem generate_random_key_spec_witness :
    (1 : Int) ≤ 3 ∧
      ((generate_random_key E0 3).length = (3 : Int).toNat ∧
       charactersList.length = 62 ∧ charactersList.Nodup ∧
       (∀ c ∈ charactersList, c.isAlphanum = true) ∧
       ∀ c ∈ (generate_random_key E0 3).data, c ∈ charactersList) :=
  ⟨by decide, generate_random_key_spec E0 3 (by decide)⟩

/-- C8: for `L ≥ 1`, `generate_numeric_key` returns exactly `L` characters,
each an ASCII decimal digit. -/
theorem generate_numeric_key_spec (e : Entropy) (L : Int) (h : 1 ≤ L) :
    (generate_numeric_key e L).length = L.toNat ∧
    ∀ c ∈ (generate_numeric_key e L).data, c.isDigit = true := by
  refine ⟨?_, ?_⟩
  · show ((List.range L.toNat).map _).length = L.toNat
    simp
  · intro c hc
    have hc' : c ∈ (List.range L.toNat).map
        (fun i => Char.ofNat (48 + e.secrets i % 10)) := hc
    simp only [List.mem_map, List.mem_range] at hc'
    obtain ⟨i, _, rfl⟩ := hc'
    exact digit_char_isDigit _ (Nat.mod_lt _ (by decide))

theorem generate_numeric_key_spec_witness :
    (1 : Int) ≤ 6 ∧
      ((generate_numeric_key E0 6).length = (6 : Int).toNat ∧
       ∀ c ∈ (generate_numeric_key E0 6).data, c.isDigit = true) :=
  ⟨by decide, generate_numeric_key_spec E0 6 (by decide)⟩

/-- C9: in the exposure phase, `main` blocks in `timer_thread.join()` until the
countdown signals completion, then runs the wipe path, and only then returns:
in every trace the countdown-completed event precedes the wipe event, the wipe
event precedes the return event, and the return event is the last event — no
observer sees a returned exposure whose secret has not been through the wipe
path. -/
theorem expose_wipe_before_return (s : Nat) :
    Event.timerDone ∈ expose_trace s ∧
    Event.wipeKey ∈ expose_trace s ∧
    Event.exposeReturn ∈ expose_trace s ∧
    (expose_trace s).indexOf Event.timerDone < (expose_trace s).indexOf Event.wipeKey ∧
    (expose_trace s).indexOf Event.wipeKey < (expose_trace s).indexOf Event.exposeReturn ∧
    (expose_trace s).indexOf Event.exposeReturn + 1 = (expose_trace s).length := by
  have htr : expose_trace s =
      ((List.range s).map (fun i => Event.tick (s - i))) ++
        [Event.timerDone, Event.threadJoined, Event.wipeKey, Event.exposeReturn] := by
    simp [expose_trace, countdown_events]
  rw [htr]
  have h1 : Event.timerDone ∉ (List.range s).map (fun i => Event.tick (s - i)) := by simp
  have h2 : Event.wipeKey ∉ (List.range s).map (fun i => Event.tick (s - i)) := by simp
  have h3 : Event.exposeReturn ∉ (List.range s).map (fun i => Event.tick (s - i)) := by simp
  rw [List.indexOf_append_of_not_mem h1, List.indexOf_append_of_not_mem h2,
      List.indexOf_append_of_not_mem h3]
  refine ⟨by simp, by simp, by simp, ?_, ?_, ?_⟩ <;> simp [List.indexOf_cons]

/-- C10: the dispatch `key_generators[choice]()` calls every generator with no
arguments, so each uses its built-in default parameter; in particular choice 8
is HMAC keyed by the fixed `"my_secret"`, and any two runs (any two entropy
records) selecting the HMAC option produce the identical secret. -/
theorem key_generators_call_defaults :
    (∀ e, key_generators_call e 1 = generate_random_key e 32) ∧
    (∀ e, key_generators_call e 2 = generate_uuid_key e) ∧
    (∀ e, key_generators_call e 3 = generate_hex_key e 32) ∧
    (∀ e, key_generators_call e 4 = generate_sha256_key e) ∧
    (∀ e, key_generators_call e 5 = generate_base64_key e 32) ∧
    (∀ e, key_generators_call e 6 = generate_numeric_key e 6) ∧
    (∀ e, key_generators_call e 7 = generate_passphrase e 4) ∧
    (∀ e, key_generators_call e 8 = generate_hmac_key e "my_secret") ∧
    (∀ e₁ e₂, key_generators_call e₁ 8 = key_generators_call e₂ 8) := by
  refine ⟨fun e => ?_, fun e => ?_, fun e => ?_, fun e => ?_, fun e => ?_,
    fun e => ?_, fun e => ?_, fun e => ?_, fun e₁ e₂ => ?_⟩ <;>
    simp [key_generators_call, generate_hmac_key]

set_option maxRecDepth 100000 in
set_option maxHeartbeats 2000000 in
theorem hmac_empty_key_accepted (e : Entropy) : (generate_hmac_key e "").length = 64 := by
  show (hmacSha256Hex (strBytes "") (strBytes "secure_data")).length = 64
  decide

/-- C2 counterexample: invoked with length `0`, both parametric generators
return the empty string — a value, not an `InvalidParameter` failure — and the
HMAC generator accepts the empty key and returns an ordinary 64-character
digest.  The claim that every invalid parameter fails with `InvalidParameter`
is therefore false on the code. -/
theorem zero_length_returns_value :
    generate_random_key E0 0 = "" ∧ generate_numeric_key E0 0 = "" ∧
    (generate_hmac_key E0 "").length = 64 :=
  ⟨rfl, rfl, hmac_empty_key_accepted E0⟩

/-- C2 (amended): the generators perform no parameter validation at all: for
every length `L ≤ 0` the alphanumeric and numeric generators return the empty
string (the loop body runs zero times), and an empty HMAC key is accepted,
yielding an ordinary 64-character digest; no `InvalidParameter` error exists
anywhere in the code. -/
theorem generators_no_parameter_validation (e : Entropy) (L : Int) (h : L ≤ 0) :
    generate_random_key e L = "" ∧ generate_numeric_key e L = "" ∧
    (generate_hmac_key e "").length = 64 := by
  refine ⟨?_, ?_, hmac_empty_key_accepted e⟩ <;>
    simp [generate_random_key, generate_numeric_key, Int.toNat_of_nonpos h]

theorem generators_no_parameter_validation_witness :
    (-5 : Int) ≤ 0 ∧
      (generate_random_key E0 (-5) = "" ∧ generate_numeric_key E0 (-5) = "" ∧
       (generate_hmac_key E0 "").length = 64) :=
  ⟨by decide, generators_no_parameter_validation E0 (-5) (by decide)⟩

theorem hmac_key_nul_padding_collision :
    generate_hmac_key E0 "k" = generate_hmac_key E0 "k\x00" := by
  have h : hmacPadKey (strBytes "k") = hmacPadKey (strBytes "k\x00") := by decide
  show hmacSha256Hex (strBytes "k") (strBytes "secure_data") =
       hmacSha256Hex (strBytes "k\x00") (strBytes "secure_data")
  simp only [hmacSha256Hex, h]

/-- C4 counterexample: the keys `"k"` and `"k\x00"` are distinct strings, yet
`generate_hmac_key` maps them to the same digest: HMAC zero-pads any key
shorter than the 64-byte block, so a key and the same key with trailing NUL
bytes produce identical padded key blocks and hence identical output.  The
universally quantified half of the claim — distinct keys always give distinct
output — is therefore false on the code. -/
theorem hmac_distinct_keys_same_output :
    ("k" : String) ≠ "k\x00" ∧
    generate_hmac_key E0 "k" = generate_hmac_key E0 "k\x00" :=
  ⟨by decide, hmac_key_nul_padding_collision⟩

/-- C4 (amended): `generate_hmac_key` is deterministic in its key — any two
invocations (any two entropy records) with the same key produce identical
output — but distinct keys do NOT always produce distinct output: keys whose
zero-padded 64-byte key blocks coincide (such as `"k"` and `"k\x00"`)
collide. -/
theorem generate_hmac_key_deterministic_not_injective :
    (∀ e₁ e₂ (k : String), generate_hmac_key e₁ k = generate_hmac_key e₂ k) ∧
    (∃ k₁ k₂ : String, k₁ ≠ k₂ ∧ generate_hmac_key E0 k₁ = generate_hmac_key E0 k₂) :=
  ⟨fun _ _ _ => rfl, ⟨"k", "k\x00", by decide, hmac_key_nul_padding_collision⟩⟩

/-- C3 counterexample: `generate_passphrase` (here with `numWords = 4 ≥ 1`)
draws from the non-secure `random` module: two entropy records with identical
secure streams but different non-secure streams yield different passphrases,
so the passphrase output is not a function of the secure source alone. -/
theorem passphrase_drawn_from_nonsecure_source :
    E0.secrets = E1.secrets ∧ generate_passphrase E0 4 ≠ generate_passphrase E1 4 :=
  ⟨rfl, by decide⟩

/-- C3 (amended): seven of the eight generators draw all randomness from the
cryptographically secure `secrets` source — their output depends only on the
secure oracle — but `generate_passphrase` samples its wordlist tokens via the
non-secure `random` module. -/
theorem secure_source_all_but_passphrase :
    (∀ L, dependsOnlyOnSecrets (fun e => generate_random_key e L)) ∧
    dependsOnlyOnSecrets generate_uuid_key ∧
    (∀ L, dependsOnlyOnSecrets (fun e => generate_hex_key e L)) ∧
    dependsOnlyOnSecrets generate_sha256_key ∧
    (∀ L, dependsOnlyOnSecrets (fun e => generate_base64_key e L)) ∧
    (∀ L, dependsOnlyOnSecrets (fun e => generate_numeric_key e L)) ∧
    (∀ k, dependsOnlyOnSecrets (fun e => generate_hmac_key e k)) ∧
    ¬ dependsOnlyOnSecrets (fun e => generate_passphrase e 4) := by
  refine ⟨fun L e₁ e₂ h => ?_, fun e₁ e₂ h => ?_, fun L e₁ e₂ h => ?_,
    fun e₁ e₂ h => ?_, fun L e₁ e₂ h => ?_, fun L e₁ e₂ h => ?_,
    fun k e₁ e₂ h => ?_, fun hd => absurd (hd E0 E1 rfl) (by decide)⟩
  · simp only [generate_random_key, secretsChoice, h]
  · simp only [generate_uuid_key, h]
  · simp only [generate_hex_key, h]
  · simp only [generate_sha256_key, h]
  · simp only [generate_base64_key, h]
  · simp only [generate_numeric_key, h]
  · rfl

theorem secure_source_all_but_passphrase_witness :
    generate_random_key E0 32 = generate_random_key E1 32 :=
  secure_source_all_but_passphrase.1 32 E0 E1 rfl
